import Mathlib

/-!
Verification of the asynchronous file-ingestion pipeline of the AI_CLI
repository: the transcode claim queue (process_unprocessed_files.py), the
summarization claim queue (summarize_transcoded_files.py), the file-type
classifier and upload storage helpers (file_utils.py), and the upload route
(app.py, upload_file_to_conversation).

Modelling conventions:
- a SQL table is a list of rows; `ORDER BY c ASC/DESC ... first()` is modelled
  as the first row of the list attaining the minimal/maximal key (stable with
  respect to list order, matching SQLite's stable enumeration of equal keys);
- timestamps (DateTime) are abstract and modelled as Nat; float durations are
  modelled as Rat (they are only stored, never computed with);
- Python strings are modelled as String, with character-list (`String.data`)
  reasoning for substring facts; `str.strip()` is modelled over the ASCII
  whitespace characters recognised by `Char.isWhitespace`.
-/

namespace AICli

/-! ## Data model: the chat_files table (database.py, ChatFile) -/

/-- A row of the chat_files table, restricted to the columns read or written
by the ingestion pipeline and the upload route.  `has_been_processed` is the
transcode state (0=unprocessed, 1=processing, 2=processed, 3=failed,
4=do-not-process); `status_summary` is the summarize state (NULL/0=pending,
1=processing, 2=done, 3=failed). -/
structure ChatFile where
  id : Nat
  conversation_id : Nat
  original_filename : String
  system_filename : String
  file_path : String
  file_type : String
  mime_type : Option String
  file_size : Nat
  upload_date : Nat
  uploaded_by : Nat
  file_hash : Option String
  has_been_processed : Nat
  transcoded_raw_file : Option String
  ai_summary : Option String
  status_summary : Option Nat
  human_notes : Option String
  date_processed : Option Nat
  time_to_process : Option Rat
  deriving DecidableEq, Repr

/-- A row of the conversations table (only the columns the upload route
touches). -/
structure Conversation where
  id : Nat
  user_id : Nat
  updated_at : Nat
  deriving DecidableEq, Repr

/-! ## Python str.strip() -/

/-- Python str.strip over a character list: drop whitespace from both ends. -/
def pyStrip (l : List Char) : List Char :=
  ((l.dropWhile Char.isWhitespace).reverse.dropWhile Char.isWhitespace).reverse

/-- Python str.strip on a String. -/
def pyStripS (s : String) : String :=
  String.mk (pyStrip s.data)

/-- Python str.lower, character by character. -/
def pyLowerS (s : String) : String :=
  String.mk (s.data.map Char.toLower)

/-- The substring of a string after its last dot (what Python
filename.split('.')[-1] yields when the filename contains a dot). -/
def afterLastDot (s : String) : String :=
  String.mk ((s.data.reverse.takeWhile (fun c => !(c == '.'))).reverse)

/-! ## Format classifier (file_utils.py) -/

/-- FILE_TYPE_MAPPINGS from file_utils.py: MIME type to category, in source
order. -/
def FILE_TYPE_MAPPINGS : List (String × String) :=
  [("audio/mpeg", "audio"), ("audio/mp3", "audio"), ("audio/wav", "audio"),
   ("audio/ogg", "audio"), ("audio/m4a", "audio"), ("audio/aac", "audio"),
   ("audio/flac", "audio"),
   ("image/jpeg", "image"), ("image/jpg", "image"), ("image/png", "image"),
   ("image/gif", "image"), ("image/webp", "image"), ("image/svg+xml", "image"),
   ("image/bmp", "image"),
   ("text/plain", "text"), ("text/markdown", "text"), ("text/html", "text"),
   ("text/css", "text"), ("text/javascript", "text"),
   ("application/json", "text"), ("application/xml", "text"),
   ("text/tab-separated-values", "text"),
   ("application/pdf", "document"), ("application/msword", "document"),
   ("application/vnd.openxmlformats-officedocument.wordprocessingml.document", "document"),
   ("application/vnd.ms-excel", "document"),
   ("application/vnd.openxmlformats-officedocument.spreadsheetml.sheet", "document"),
   ("application/vnd.ms-powerpoint", "document"),
   ("application/vnd.openxmlformats-officedocument.presentationml.presentation", "document"),
   ("text/csv", "document"),
   ("application/vnd.oasis.opendocument.spreadsheet", "document"),
   ("application/vnd.oasis.opendocument.text", "document"),
   ("application/vnd.oasis.opendocument.presentation", "document"),
   ("application/rtf", "document"), ("application/x-rtf", "document"),
   ("application/zip", "archive"), ("application/x-tar", "archive"),
   ("application/gzip", "archive"), ("application/x-rar-compressed", "archive"),
   ("image/tiff", "image")]

/-- ALLOWED_EXTENSIONS from file_utils.py: category to extension set, in
source (dict insertion) order. -/
def ALLOWED_EXTENSIONS : List (String × List String) :=
  [("audio", ["mp3", "wav", "ogg", "m4a", "aac", "flac", "mpga"]),
   ("image", ["jpg", "jpeg", "png", "gif", "webp", "svg", "bmp", "tif", "tiff"]),
   ("text", ["txt", "md", "html", "css", "js", "json", "xml", "py", "sql", "tsv"]),
   ("document", ["pdf", "doc", "docx", "xls", "xlsx", "ppt", "pptx", "csv", "ods", "odt", "odp", "rtf"]),
   ("archive", ["zip", "tar", "gz", "rar"])]

/-- get_file_type_from_mime: a falsy (absent or empty) MIME type gives
category other; otherwise look up the lowercased MIME type in
FILE_TYPE_MAPPINGS, defaulting to other. -/
def get_file_type_from_mime (mime_type : Option String) : String :=
  match mime_type with
  | none => "other"
  | some m =>
    if m = "" then "other"
    else ((FILE_TYPE_MAPPINGS.find? (fun p => p.1 == pyLowerS m)).map Prod.snd).getD "other"

/-- get_file_type_from_extension: take the substring after the last dot of
the lowercased filename (empty when there is no dot) and return the first
category of ALLOWED_EXTENSIONS whose set contains it, defaulting to other. -/
def get_file_type_from_extension (filename : String) : String :=
  if filename = "" then "other"
  else
    let ext := if filename.data.contains '.' then afterLastDot (pyLowerS filename)
               else ""
    match ALLOWED_EXTENSIONS.find? (fun p => p.2.contains ext) with
    | some p => p.1
    | none => "other"

/-- The classification expression of save_uploaded_file (file_utils.py line
184): the Python expression
get_file_type_from_mime(mime_type) or get_file_type_from_extension(original_filename)
falls through to the extension lookup only when the first operand is falsy
(the empty string). -/
def upload_file_type (mime_type : Option String) (original_filename : String) : String :=
  let m := get_file_type_from_mime mime_type
  if m = "" then get_file_type_from_extension original_filename else m

/-! ## Prompt building (summarize_transcoded_files.py, build_prompt) -/

/-- SYSTEM_PROMPT of summarize_transcoded_files.py with the default
SUMMARY_TARGET_WORDS = 150 interpolated. -/
def SYSTEM_PROMPT : String :=
  "You are a helpful assistant. Summarize the provided file content clearly and concisely, focusing on key points, structure, and any actionable items. If the content appears to be a transcript, provide a brief overview with main topics. Keep it around 150 words."

/-- The default character budget SUMMARY_MAX_INPUT_CHARS = 24000. -/
def MAX_INPUT_CHARS : Nat := 24000

/-- The truncation marker inserted by build_prompt between the head and tail
slices. -/
def truncMarker : List Char := "\n... [content truncated] ...\n".data

/-- The fixed text that build_prompt places before the (possibly truncated)
content. -/
def promptHead : List Char :=
  ("System: " ++ SYSTEM_PROMPT ++
   "\n\nUser: Please summarize the following file content.\n\nCONTENT:\n").data

/-- The fixed text that build_prompt places after the content. -/
def promptTail : List Char := "\n\nAssistant:".data

/-- The truncation step of build_prompt for a configured budget maxChars:
when the stripped text is longer than the budget, keep
text[: maxChars // 2] (the first floor(maxChars/2) characters) and
text[-maxChars // 2 :] (the last ceil(maxChars/2) characters, which in
Python floor division is the slice starting at -((maxChars+1)/2); for
maxChars = 0 the Python slice text[-0:] is the whole text) with the marker
between them. -/
def truncatedBody (maxChars : Nat) (t : List Char) : List Char :=
  if maxChars < t.length then
    t.take (maxChars / 2) ++ truncMarker ++
      (if maxChars = 0 then t else t.drop (t.length - (maxChars + 1) / 2))
  else t

/-- build_prompt of summarize_transcoded_files.py: strip the content,
truncate it to the budget, and wrap it in the fixed prompt text. -/
def build_prompt (maxChars : Nat) (content : List Char) : List Char :=
  promptHead ++ truncatedBody maxChars (pyStrip content) ++ promptTail

/-! ## PDF extraction (process_unprocessed_files.py, process_pdf_file) -/

/-- An opened PDF document as seen through the PyMuPDF calls the code makes:
the is_encrypted flag and the get_text() result of each page in order. -/
structure PdfDoc where
  encrypted : Bool
  pages : List String
  deriving DecidableEq, Repr

/-- The page-section list built by the loop of process_pdf_file, starting
from a given 0-based page number: pages whose stripped text is empty are
skipped, the others become "=== PAGE n ===" headers (1-based) followed by
the stripped text. -/
def pdfPageSectionsFrom : Nat → List String → List String
  | _, [] => []
  | i, p :: ps =>
    if pyStripS p = "" then pdfPageSectionsFrom (i + 1) ps
    else ("=== PAGE " ++ toString (i + 1) ++ " ===\n" ++ pyStripS p)
           :: pdfPageSectionsFrom (i + 1) ps

/-- The page sections of a page list, numbered from page 1. -/
def pdfPageSections (pages : List String) : List String :=
  pdfPageSectionsFrom 0 pages

/-- process_pdf_file of process_unprocessed_files.py over an opened
document; the filename argument is the basename interpolated into the
metadata block.  Returns the (success, content, error) triple of the
extractor contract. -/
def process_pdf_file (filename : String) (doc : PdfDoc) :
    Bool × String × Option String :=
  if doc.encrypted then
    (false, "", some "PDF is encrypted and cannot be processed")
  else
    let text_content := pdfPageSections doc.pages
    if text_content.isEmpty then
      (false, "", some "No text content found in PDF (may be image-based)")
    else
      let full_text := String.intercalate "\n\n" text_content
      let summary :=
        "=== PDF METADATA ===\nTotal Pages: " ++ toString doc.pages.length ++
        "\nPages with Text: " ++ toString text_content.length ++
        "\nFile: " ++ filename ++ "\n\n=== EXTRACTED TEXT ===\n" ++ full_text
      (true, summary, none)

/-! ## Query semantics: ORDER BY upload_date ASC / DESC ... first() -/

/-- The first row of a list attaining the minimal upload_date (the result of
ORDER BY upload_date ASC ... first() under a stable sort). -/
def queryFirstAsc : List ChatFile → Option ChatFile
  | [] => none
  | r :: rs =>
    match queryFirstAsc rs with
    | none => some r
    | some b => if b.upload_date < r.upload_date then some b else some r

/-- The first row of a list attaining the maximal upload_date (the result of
ORDER BY upload_date DESC ... first() under a stable sort). -/
def queryFirstDesc : List ChatFile → Option ChatFile
  | [] => none
  | r :: rs =>
    match queryFirstDesc rs with
    | none => some r
    | some b => if r.upload_date < b.upload_date then some b else some r

/-! ## Transcode claim queue (process_unprocessed_files.py) -/

/-- The filter of get_next_unprocessed_file: has_been_processed == 0. -/
def transcodeEligible (r : ChatFile) : Bool :=
  r.has_been_processed == 0

/-- The read half of get_next_unprocessed_file: the oldest row with
has_been_processed == 0. -/
def get_next_unprocessed_read (db : List ChatFile) : Option ChatFile :=
  queryFirstAsc (db.filter transcodeEligible)

/-- The write half of get_next_unprocessed_file: set has_been_processed = 1
on the row with the given id and commit. -/
def setProcessing (db : List ChatFile) (i : Nat) : List ChatFile :=
  db.map (fun r => if r.id = i then { r with has_been_processed := 1 } else r)

/-- get_next_unprocessed_file as one serialized unit: read the oldest
unprocessed row, then mark it as being processed.  Returns the claimed row
and the updated table. -/
def get_next_unprocessed_file (db : List ChatFile) :
    Option ChatFile × List ChatFile :=
  match get_next_unprocessed_read db with
  | none => (none, db)
  | some r => (some r, setProcessing db r.id)

/-- mark_file_processed: store the transcoded content, the completion
timestamp, the elapsed duration, and state 2. -/
def mark_file_processed (now : Nat) (content : String) (t : Rat)
    (r : ChatFile) : ChatFile :=
  { r with transcoded_raw_file := some content,
           date_processed := some now,
           time_to_process := some t,
           has_been_processed := 2 }

/-- mark_file_failed: state 3, human_notes overwritten with the failure
message (the Python f-string interpolates datetime.utcnow(), modelled by
toString now), and the elapsed duration. -/
def mark_file_failed (now : Nat) (error_message : String) (t : Rat)
    (r : ChatFile) : ChatFile :=
  { r with has_been_processed := 3,
           human_notes :=
             some ("Processing failed at " ++ toString now ++ ": " ++ error_message),
           time_to_process := some t }

/-! ### Two workers running the claim step concurrently

The claim step of the source is a separate read (SELECT ... first()) and
write (has_been_processed = 1; commit).  A worker is a small state machine
that performs its read, then its write; a schedule is the interleaving order
of the two workers' steps against the shared table. -/

/-- The phase of one claim-step worker: before its read, between read and
write (holding its read result), or finished. -/
inductive WorkerPhase where
  | start : WorkerPhase
  | readDone : Option ChatFile → WorkerPhase
  | finished : Option ChatFile → WorkerPhase
  deriving DecidableEq, Repr

/-- One step of a claim-step worker against the shared table: the read
queries the table; the write commits has_been_processed = 1 for the row it
read (a finished worker leaves everything unchanged). -/
def stepWorker (db : List ChatFile) : WorkerPhase → WorkerPhase × List ChatFile
  | .start => (.readDone (get_next_unprocessed_read db), db)
  | .readDone none => (.finished none, db)
  | .readDone (some r) => (.finished (some r), setProcessing db r.id)
  | .finished r => (.finished r, db)

/-- The shared table together with the two workers' phases. -/
structure TwoWorkers where
  db : List ChatFile
  w1 : WorkerPhase
  w2 : WorkerPhase
  deriving DecidableEq, Repr

/-- Run one scheduled step: true steps worker 1, false steps worker 2. -/
def stepSys (s : TwoWorkers) (pickFirstWorker : Bool) : TwoWorkers :=
  if pickFirstWorker then
    { s with w1 := (stepWorker s.db s.w1).1, db := (stepWorker s.db s.w1).2 }
  else
    { s with w2 := (stepWorker s.db s.w2).1, db := (stepWorker s.db s.w2).2 }

/-- Run a schedule (a list of worker choices) from an initial table with
both workers about to claim. -/
def runSched (db : List ChatFile) (sched : List Bool) : TwoWorkers :=
  sched.foldl stepSys ⟨db, .start, .start⟩

/-! ## Summarization claim queue (summarize_transcoded_files.py) -/

/-- The ai_summary filter of get_next_to_summarize: NULL or the empty
string. -/
def summaryEmpty : Option String → Bool
  | none => true
  | some s => s == ""

/-- The status_summary filter of get_next_to_summarize: NULL, 0 (pending) or
3 (failed). -/
def statusSelectable : Option Nat → Bool
  | none => true
  | some 0 => true
  | some 3 => true
  | some _ => false

/-- The full row filter of get_next_to_summarize: processed (state 2), no
summary yet, and a selectable summarize status.  No condition on
transcoded_raw_file appears in the query. -/
def summarizeEligible (r : ChatFile) : Bool :=
  (r.has_been_processed == 2) && summaryEmpty r.ai_summary
    && statusSelectable r.status_summary

/-- The read half of get_next_to_summarize: the newest eligible row. -/
def get_next_to_summarize_read (db : List ChatFile) : Option ChatFile :=
  queryFirstDesc (db.filter summarizeEligible)

/-- The write half of get_next_to_summarize: status_summary = 1 on the
selected row, committed so other workers will not pick it up. -/
def setSummarizing (db : List ChatFile) (i : Nat) : List ChatFile :=
  db.map (fun r => if r.id = i then { r with status_summary := some 1 } else r)

/-- get_next_to_summarize as one serialized unit. -/
def get_next_to_summarize (db : List ChatFile) :
    Option ChatFile × List ChatFile :=
  match get_next_to_summarize_read db with
  | none => (none, db)
  | some r => (some r, setSummarizing db r.id)

/-- The failure branch of process_one_batch (summarize_transcoded_files.py):
status_summary = 3 and the note "Summary failed at runtime." appended to
human_notes (never erasing existing notes), then stripped. -/
def markSummaryFailed (r : ChatFile) : ChatFile :=
  { r with status_summary := some 3,
           human_notes :=
             some (pyStripS ((r.human_notes.getD "") ++ "\nSummary failed at runtime.")) }

/-- One failed summarization sweep over a claimed row: the selection set
status_summary = 1, summarize_one failed (for example because
transcoded_raw_file is empty), and the failure branch recorded status 3. -/
def summarySweepFailed (r : ChatFile) : ChatFile :=
  markSummaryFailed { r with status_summary := some 1 }

/-! ## Upload route (app.py, upload_file_to_conversation) -/

/-- MAX_FILE_SIZE from file_utils.py: 100 MB. -/
def MAX_FILE_SIZE : Nat := 100 * 1024 * 1024

/-- validate_file of file_utils.py: the original filename must be non-empty,
the size positive and within the limit, and the sanitized filename must have
an allowed extension.  Returns the (is_valid, message) pair. -/
def validate_file (origName securedName : String) (size : Nat) : Bool × String :=
  if origName = "" then (false, "No file selected")
  else if MAX_FILE_SIZE < size then
    (false, "File too large. Maximum size is 100MB")
  else if size = 0 then (false, "File is empty")
  else if !(securedName.data.contains '.') then (false, "File must have an extension")
  else
    let ext := pyLowerS (afterLastDot securedName)
    if ALLOWED_EXTENSIONS.any (fun p => p.2.contains ext) then
      (true, "File is valid")
    else (false, "File type '" ++ ext ++ "' not allowed")

/-- The environment a single upload request runs in: the hash function, the
filename sanitizer, the generated system filename, the date shard, the MIME
guesser, the clock, and the id the database will assign. -/
structure UploadEnv where
  md5 : List Nat → String
  secure : String → String
  system_filename : String
  date_path : String
  mime_guess : String → Option String
  now : Nat
  new_id : Nat

/-- The state the upload route can touch: the conversations table, the
chat_files table, and the on-disk content store (relative path with stored
bytes). -/
structure AppState where
  conversations : List Conversation
  chat_files : List ChatFile
  store : List (String × List Nat)
  deriving DecidableEq

/-- The response of the upload route, by status code. -/
inductive UploadResponse where
  | notFound : UploadResponse
  | badRequest : String → UploadResponse
  | conflict : String → Nat → UploadResponse
  | ok : Nat → UploadResponse
  deriving DecidableEq, Repr

/-- upload_file_to_conversation of app.py: look up the conversation, reject
an empty filename, hash the bytes and reject a duplicate hash in the same
conversation with 409 (before anything is written), then validate and save
the file (ValueError becomes 400), insert the chat_files row, and touch the
conversation timestamp. -/
def upload_file_to_conversation (env : UploadEnv) (st : AppState)
    (userId convId : Nat) (filename : String) (content : List Nat) :
    AppState × UploadResponse :=
  match st.conversations.find? (fun c => c.id == convId && c.user_id == userId) with
  | none => (st, .notFound)
  | some _ =>
    if filename = "" then (st, .badRequest "No file selected")
    else
      let file_hash := env.md5 content
      match st.chat_files.find?
          (fun f => f.conversation_id == convId && f.file_hash == some file_hash) with
      | some existing =>
        (st, .conflict existing.original_filename existing.upload_date)
      | none =>
        let v := validate_file filename (env.secure filename) content.length
        if v.1 = false then (st, .badRequest v.2)
        else
          let original := env.secure filename
          let mime := env.mime_guess original
          let rel := env.date_path ++ "/" ++ env.system_filename
          let newFile : ChatFile :=
            { id := env.new_id, conversation_id := convId,
              original_filename := original,
              system_filename := env.system_filename,
              file_path := rel,
              file_type := upload_file_type mime original,
              mime_type := mime, file_size := content.length,
              upload_date := env.now, uploaded_by := userId,
              file_hash := some file_hash,
              has_been_processed := 0, transcoded_raw_file := none,
              ai_summary := none, status_summary := some 0,
              human_notes := none, date_processed := none,
              time_to_process := none }
          ({ conversations :=
               st.conversations.map (fun c =>
                 if c.id == convId && c.user_id == userId then
                   { c with updated_at := env.now } else c),
             chat_files := st.chat_files ++ [newFile],
             store := st.store ++ [(rel, content)] },
           .ok env.new_id)

/-! ## Concrete fixtures used by witnesses and counterexamples -/

/-- A baseline chat_files row; fixtures override individual columns. -/
def row0 : ChatFile :=
  { id := 0, conversation_id := 1, original_filename := "a.txt",
    system_filename := "sys.txt", file_path := "2026/10/12/sys.txt",
    file_type := "text", mime_type := some "text/plain", file_size := 11,
    upload_date := 0, uploaded_by := 1, file_hash := some "h0",
    has_been_processed := 0, transcoded_raw_file := none, ai_summary := none,
    status_summary := some 0, human_notes := none, date_processed := none,
    time_to_process := none }

/-- An unprocessed row uploaded at time 10. -/
def rowT1 : ChatFile := { row0 with id := 1, upload_date := 10 }

/-- An unprocessed row uploaded at time 5 (the oldest unprocessed row). -/
def rowT2 : ChatFile := { row0 with id := 2, upload_date := 5 }

/-- A processed row awaiting a summary, uploaded at time 20. -/
def rowS1 : ChatFile :=
  { row0 with id := 3, upload_date := 20, has_been_processed := 2,
              transcoded_raw_file := some "content one" }

/-- A processed row awaiting a summary, uploaded at time 30 (the newest
eligible row). -/
def rowS2 : ChatFile :=
  { row0 with id := 4, upload_date := 30, has_been_processed := 2,
              transcoded_raw_file := some "content two" }

/-- A four-row table with two unprocessed and two summarizable rows. -/
def dbW : List ChatFile := [rowT1, rowT2, rowS1, rowS2]

/-- A single unprocessed row contended for by two workers. -/
def rowC1 : ChatFile := { row0 with id := 11, upload_date := 3 }

/-- Two unprocessed rows for the serialized claim witness: rowA is older. -/
def rowA : ChatFile := { row0 with id := 21, upload_date := 1 }

/-- The younger of the two rows of the serialized claim witness. -/
def rowB : ChatFile := { row0 with id := 22, upload_date := 2 }

/-- A row that finished transcoding with empty extracted content: state 2,
transcoded_raw_file = the empty string, no summary yet, summarize status
pending. -/
def rowC2 : ChatFile :=
  { row0 with id := 9, upload_date := 7, has_been_processed := 2,
              transcoded_raw_file := some "" }

/-- A row carrying a pre-existing human note. -/
def rowC4 : ChatFile := { row0 with id := 5, human_notes := some "IMPORTANT-NOTE" }

/-- A 3-page PDF whose second page has no extractable text. -/
def pdfDoc3 : PdfDoc := { encrypted := false, pages := ["hello", "   ", "world"] }

/-- An encrypted PDF. -/
def pdfDocEnc : PdfDoc := { encrypted := true, pages := ["secret"] }

/-- The upload environment of the duplicate-upload witness: every byte
sequence hashes to "h", sanitization is the identity. -/
def envW : UploadEnv :=
  { md5 := fun _ => "h", secure := fun s => s, system_filename := "gen.txt",
    date_path := "2026/10/12", mime_guess := fun _ => some "text/plain",
    now := 100, new_id := 2 }

/-- A stored row whose hash "h" already exists in conversation 1. -/
def rowDup : ChatFile :=
  { row0 with id := 7, conversation_id := 1, original_filename := "orig.txt",
              upload_date := 42, file_hash := some "h" }

/-- The app state of the duplicate-upload witness: one conversation owned by
user 1, one stored file with hash "h", an empty content store. -/
def stW : AppState :=
  { conversations := [{ id := 1, user_id := 1, updated_at := 0 }],
    chat_files := [rowDup], store := [] }

/-! ## Lemmas about the query semantics -/

theorem queryFirstAsc_cons_ne_none (a : ChatFile) (l : List ChatFile) :
    queryFirstAsc (a :: l) ≠ none := by
  cases hm : queryFirstAsc l <;> simp [queryFirstAsc, hm]
  split <;> simp

theorem queryFirstAsc_mem :
    ∀ {l : List ChatFile} {r : ChatFile}, queryFirstAsc l = some r → r ∈ l := by
  intro l
  induction l with
  | nil => intro r h; simp [queryFirstAsc] at h
  | cons a l ih =>
    intro r h
    cases hq : queryFirstAsc l with
    | none =>
      simp [queryFirstAsc, hq] at h
      simp [h]
    | some b =>
      by_cases hb : b.upload_date < a.upload_date
      · simp [queryFirstAsc, hq, hb] at h
        rw [← h]
        exact List.mem_cons_of_mem _ (ih hq)
      · simp [queryFirstAsc, hq, hb] at h
        simp [← h]

theorem queryFirstAsc_le :
    ∀ {l : List ChatFile} {r : ChatFile}, queryFirstAsc l = some r →
      ∀ x ∈ l, r.upload_date ≤ x.upload_date := by
  intro l
  induction l with
  | nil => intro r _ x hx; simp at hx
  | cons a l ih =>
    intro r h x hx
    cases hq : queryFirstAsc l with
    | none =>
      cases l with
      | nil =>
        simp [queryFirstAsc] at h
        rcases List.mem_singleton.mp hx with rfl
        simp [← h]
      | cons c m => exact absurd hq (queryFirstAsc_cons_ne_none c m)
    | some b =>
      by_cases hb : b.upload_date < a.upload_date
      · simp [queryFirstAsc, hq, hb] at h
        rcases List.mem_cons.mp hx with rfl | hx'
        · exact h ▸ le_of_lt hb
        · exact h ▸ ih hq x hx'
      · simp [queryFirstAsc, hq, hb] at h
        rcases List.mem_cons.mp hx with rfl | hx'
        · exact h ▸ le_refl _
        · exact h ▸ le_trans (not_lt.mp hb) (ih hq x hx')

theorem queryFirstDesc_cons_ne_none (a : ChatFile) (l : List ChatFile) :
    queryFirstDesc (a :: l) ≠ none := by
  cases hm : queryFirstDesc l <;> simp [queryFirstDesc, hm]
  split <;> simp

theorem queryFirstDesc_mem :
    ∀ {l : List ChatFile} {r : ChatFile}, queryFirstDesc l = some r → r ∈ l := by
  intro l
  induction l with
  | nil => intro r h; simp [queryFirstDesc] at h
  | cons a l ih =>
    intro r h
    cases hq : queryFirstDesc l with
    | none =>
      simp [queryFirstDesc, hq] at h
      simp [h]
    | some b =>
      by_cases hb : a.upload_date < b.upload_date
      · simp [queryFirstDesc, hq, hb] at h
        rw [← h]
        exact List.mem_cons_of_mem _ (ih hq)
      · simp [queryFirstDesc, hq, hb] at h
        simp [← h]

theorem queryFirstDesc_ge :
    ∀ {l : List ChatFile} {r : ChatFile}, queryFirstDesc l = some r →
      ∀ x ∈ l, x.upload_date ≤ r.upload_date := by
  intro l
  induction l with
  | nil => intro r _ x hx; simp at hx
  | cons a l ih =>
    intro r h x hx
    cases hq : queryFirstDesc l with
    | none =>
      cases l with
      | nil =>
        simp [queryFirstDesc] at h
        rcases List.mem_singleton.mp hx with rfl
        simp [← h]
      | cons c m => exact absurd hq (queryFirstDesc_cons_ne_none c m)
    | some b =>
      by_cases hb : a.upload_date < b.upload_date
      · simp [queryFirstDesc, hq, hb] at h
        rcases List.mem_cons.mp hx with rfl | hx'
        · exact h ▸ le_of_lt hb
        · exact h ▸ ih hq x hx'
      · simp [queryFirstDesc, hq, hb] at h
        rcases List.mem_cons.mp hx with rfl | hx'
        · exact h ▸ le_refl _
        · exact h ▸ le_trans (ih hq x hx') (not_lt.mp hb)

/-! ## Lemmas about the two selection reads -/

theorem get_next_unprocessed_read_spec {db : List ChatFile} {r : ChatFile}
    (h : get_next_unprocessed_read db = some r) :
    r ∈ db ∧ r.has_been_processed = 0 ∧
      ∀ x ∈ db, x.has_been_processed = 0 → r.upload_date ≤ x.upload_date := by
  have hmem := queryFirstAsc_mem h
  have hf := List.mem_filter.mp hmem
  have hstate : r.has_been_processed = 0 := by
    have := hf.2
    simpa [transcodeEligible] using this
  refine ⟨hf.1, hstate, ?_⟩
  intro x hx hx0
  exact queryFirstAsc_le h x (List.mem_filter.mpr ⟨hx, by simp [transcodeEligible, hx0]⟩)

theorem get_next_to_summarize_read_spec {db : List ChatFile} {r : ChatFile}
    (h : get_next_to_summarize_read db = some r) :
    r ∈ db ∧ summarizeEligible r = true ∧
      ∀ x ∈ db, summarizeEligible x = true → x.upload_date ≤ r.upload_date := by
  have hmem := queryFirstDesc_mem h
  have hf := List.mem_filter.mp hmem
  refine ⟨hf.1, hf.2, ?_⟩
  intro x hx hex
  exact queryFirstDesc_ge h x (List.mem_filter.mpr ⟨hx, hex⟩)

/-! ## Helper lemmas about the claim writes and the PDF sections -/

theorem setProcessing_state {db : List ChatFile} {i : Nat} {x : ChatFile}
    (hx : x ∈ setProcessing db i) (hid : x.id = i) :
    x.has_been_processed = 1 := by
  obtain ⟨y, hy, hmap⟩ := List.mem_map.mp hx
  by_cases h : y.id = i
  · simp only [setProcessing, h, if_pos] at hmap
    rw [← hmap]
  · simp only [setProcessing, h, if_neg, not_false_iff] at hmap
    rw [← hmap] at hid
    exact absurd hid h

theorem pdfPageSectionsFrom_length (ps : List String) :
    ∀ i, (pdfPageSectionsFrom i ps).length
      = ps.countP (fun p => !(pyStripS p == "")) := by
  induction ps with
  | nil => intro i; simp [pdfPageSectionsFrom]
  | cons p ps ih =>
    intro i
    by_cases h : pyStripS p = ""
    · simp [pdfPageSectionsFrom, h, List.countP_cons, ih]
    · simp [pdfPageSectionsFrom, h, List.countP_cons, ih]

/-! ## Claims -/

/-- C5: the Transcode Claim Queue selects the oldest-by-upload-time row in
state unprocessed(0) — never one in do-not-process(4) — while the
Summarization Claim Queue selects the newest-by-upload-time row among its
eligible rows. -/
theorem claim_C5 (db : List ChatFile) :
    (∀ r, get_next_unprocessed_read db = some r →
        r.has_been_processed = 0 ∧ r.has_been_processed ≠ 4 ∧
        ∀ x ∈ db, x.has_been_processed = 0 → r.upload_date ≤ x.upload_date)
  ∧ (∀ r, get_next_to_summarize_read db = some r →
        summarizeEligible r = true ∧
        ∀ x ∈ db, summarizeEligible x = true → x.upload_date ≤ r.upload_date) := by
  constructor
  · intro r h
    obtain ⟨-, h0, hmin⟩ := get_next_unprocessed_read_spec h
    exact ⟨h0, by simp [h0], hmin⟩
  · intro r h
    obtain ⟨-, he, hmax⟩ := get_next_to_summarize_read_spec h
    exact ⟨he, hmax⟩

/-- Witness for C5 on the four-row fixture: the transcode queue picks rowT2
(the older unprocessed row) and the summarize queue picks rowS2 (the newer
eligible row). -/
theorem claim_C5_witness :
    (rowT2.has_been_processed = 0 ∧ rowT2.has_been_processed ≠ 4 ∧
      ∀ x ∈ dbW, x.has_been_processed = 0 → rowT2.upload_date ≤ x.upload_date)
  ∧ (summarizeEligible rowS2 = true ∧
      ∀ x ∈ dbW, summarizeEligible x = true → x.upload_date ≤ rowS2.upload_date) :=
  ⟨(claim_C5 dbW).1 rowT2 (by decide), (claim_C5 dbW).2 rowS2 (by decide)⟩

/-- C9: the transcode-failure transition modifies only the state enum, the
human-notes field and the duration field — transcoded_raw_file and
date_processed (and every other column) are untouched — while the success
transition sets content, completion timestamp, duration and state and
touches nothing else. -/
theorem claim_C9 (now : Nat) (err content : String) (t : Rat) (r : ChatFile) :
    ((mark_file_failed now err t r).has_been_processed = 3 ∧
     (mark_file_failed now err t r).human_notes =
       some ("Processing failed at " ++ toString now ++ ": " ++ err) ∧
     (mark_file_failed now err t r).time_to_process = some t ∧
     (mark_file_failed now err t r).transcoded_raw_file = r.transcoded_raw_file ∧
     (mark_file_failed now err t r).date_processed = r.date_processed ∧
     (mark_file_failed now err t r).ai_summary = r.ai_summary ∧
     (mark_file_failed now err t r).status_summary = r.status_summary ∧
     (mark_file_failed now err t r).id = r.id ∧
     (mark_file_failed now err t r).conversation_id = r.conversation_id ∧
     (mark_file_failed now err t r).original_filename = r.original_filename ∧
     (mark_file_failed now err t r).file_path = r.file_path ∧
     (mark_file_failed now err t r).file_type = r.file_type ∧
     (mark_file_failed now err t r).upload_date = r.upload_date ∧
     (mark_file_failed now err t r).file_hash = r.file_hash ∧
     (mark_file_failed now err t r).system_filename = r.system_filename ∧
     (mark_file_failed now err t r).mime_type = r.mime_type ∧
     (mark_file_failed now err t r).file_size = r.file_size ∧
     (mark_file_failed now err t r).uploaded_by = r.uploaded_by)
  ∧ ((mark_file_processed now content t r).has_been_processed = 2 ∧
     (mark_file_processed now content t r).transcoded_raw_file = some content ∧
     (mark_file_processed now content t r).date_processed = some now ∧
     (mark_file_processed now content t r).time_to_process = some t ∧
     (mark_file_processed now content t r).human_notes = r.human_notes ∧
     (mark_file_processed now content t r).ai_summary = r.ai_summary ∧
     (mark_file_processed now content t r).status_summary = r.status_summary ∧
     (mark_file_processed now content t r).id = r.id ∧
     (mark_file_processed now content t r).upload_date = r.upload_date) := by
  constructor
  · exact ⟨rfl, rfl, rfl, rfl, rfl, rfl, rfl, rfl, rfl, rfl, rfl, rfl, rfl, rfl,
           rfl, rfl, rfl, rfl⟩
  · exact ⟨rfl, rfl, rfl, rfl, rfl, rfl, rfl, rfl, rfl⟩

/-- C8: retry policy is asymmetric — a row whose summarize state is
failed(3) stays eligible and is re-selected on a later sweep (after a failed
sweep the row is again eligible and a sweep over it selects it again), while
a row in transcode state failed(3) is never selected by the Transcode Claim
Queue. -/
theorem claim_C8 :
    (∀ (db : List ChatFile) r, get_next_unprocessed_read db = some r →
        r.has_been_processed ≠ 3)
  ∧ (∀ r : ChatFile, summarizeEligible r = true →
        summarizeEligible (summarySweepFailed r) = true ∧
        get_next_to_summarize_read [summarySweepFailed r]
          = some (summarySweepFailed r)) := by
  constructor
  · intro db r h
    have h0 := (get_next_unprocessed_read_spec h).2.1
    simp [h0]
  · intro r he
    have he' : summarizeEligible (summarySweepFailed r) = true := by
      simp [summarizeEligible, Bool.and_eq_true] at he
      simp [summarizeEligible, summarySweepFailed, markSummaryFailed,
            statusSelectable, Bool.and_eq_true, he.1.1, he.1.2]
    refine ⟨he', ?_⟩
    simp [get_next_to_summarize_read, List.filter_cons, he', queryFirstDesc]

/-- Witness for C8: a failed transcode row in the fixture table is never the
transcode selection, and the eligible row rowS1, once a summarization sweep
has failed on it, is selected again by the next sweep. -/
theorem claim_C8_witness :
    (rowT2.has_been_processed ≠ 3)
  ∧ (summarizeEligible (summarySweepFailed rowS1) = true ∧
      get_next_to_summarize_read [summarySweepFailed rowS1]
        = some (summarySweepFailed rowS1)) :=
  ⟨claim_C8.1 dbW rowT2 (by decide), claim_C8.2 rowS1 (by decide)⟩

/-- C2: (evaluation at the failing input) the Summarization Claim Queue's
selection filter has no condition on transcoded_raw_file, so a state-2 row
whose extracted content is the empty string is selected, although the claim
— and the comment above the query in the source — says such a row is never
selected. -/
theorem claim_C2_bug :
    get_next_to_summarize_read [rowC2] = some rowC2 ∧
    rowC2.has_been_processed = 2 ∧
    rowC2.transcoded_raw_file = some "" := by
  refine ⟨?_, rfl, rfl⟩
  decide

/-- C3: (evaluation at the failing input) the classification expression of
save_uploaded_file never reaches the extension fallback, because
get_file_type_from_mime returns the truthy string "other" for an absent or
unrecognized MIME type; a file named notes.py whose MIME type is absent (or
guessed as the unmapped "text/x-python") is classified "other" even though
its extension classifies as "text". -/
theorem claim_C3_bug :
    upload_file_type none "notes.py" = "other" ∧
    upload_file_type (some "text/x-python") "notes.py" = "other" ∧
    get_file_type_from_extension "notes.py" = "text" := by
  refine ⟨rfl, ?_, ?_⟩ <;> decide

/-- C4 counterexample: mark_file_failed overwrites human_notes — after a
failure on a row whose notes were "IMPORTANT-NOTE", the notes are exactly
the failure message and the previous note no longer occurs in them. -/
theorem claim_C4_cex :
    (mark_file_failed 0 "boom" 1 rowC4).human_notes =
      some "Processing failed at 0: boom" ∧
    ¬ ("IMPORTANT-NOTE".data <:+: "Processing failed at 0: boom".data) := by
  refine ⟨?_, by decide⟩
  decide

/-- C4 amended: whenever transcode processing of a claimed file fails, the
row transitions to failed(3) with human_notes replaced by the timestamped
error message (any previously existing notes are overwritten, unlike the
summarization failure path which appends), and the elapsed duration is
recorded. -/
theorem claim_C4_amended (now : Nat) (err : String) (t : Rat) (r : ChatFile) :
    (mark_file_failed now err t r).has_been_processed = 3 ∧
    (mark_file_failed now err t r).human_notes =
      some ("Processing failed at " ++ toString now ++ ": " ++ err) ∧
    (mark_file_failed now err t r).time_to_process = some t :=
  ⟨rfl, rfl, rfl⟩

/-- C1 counterexample: the claim step of the source is a separate read
(SELECT the oldest state-0 row) followed by a write (state = 1, commit); in
the interleaving where both workers read before either writes, on a table
holding one unprocessed row both workers finish having claimed that same
row — not exactly one, and neither observes "no eligible row". -/
theorem claim_C1_cex :
    (runSched [rowC1] [true, false, true, false]).w1
        = .finished (some rowC1) ∧
    (runSched [rowC1] [true, false, true, false]).w2
        = .finished (some rowC1) := by
  constructor <;> rfl

/-- C1 amended: the claim step is separate read-then-write, not an atomic
conditional update, and two workers whose reads both precede the writes
claim the same row; exactly-one-claim holds only when the two claim steps
are serialized — then the first worker's committed write removes the row
from the selection filter, so the second worker never claims a row with the
same id. -/
theorem claim_C1_amended (db : List ChatFile) (r1 r2 : ChatFile)
    (h1 : (runSched db [true, true, false, false]).w1 = .finished (some r1))
    (h2 : (runSched db [true, true, false, false]).w2 = .finished (some r2)) :
    r2.id ≠ r1.id := by
  cases hr1 : get_next_unprocessed_read db with
  | none => simp [runSched, stepSys, stepWorker, hr1] at h1
  | some a =>
    cases hr2 : get_next_unprocessed_read (setProcessing db a.id) with
    | none => simp [runSched, stepSys, stepWorker, hr1, hr2] at h2
    | some b =>
      simp [runSched, stepSys, stepWorker, hr1, hr2] at h1 h2
      have hspec := get_next_unprocessed_read_spec hr2
      have hbmem : b ∈ setProcessing db a.id := hspec.1
      have hb0 : b.has_been_processed = 0 := hspec.2.1
      intro hid
      have hid' : b.id = a.id := by rw [← h2, ← h1] at hid; exact hid
      have := setProcessing_state hbmem hid'
      rw [hb0] at this
      exact absurd this (by decide)

/-- Witness for C1 (serialized schedule on a two-row table): worker 1 claims
rowA, worker 2 claims rowB, and their ids differ. -/
theorem claim_C1_witness : rowB.id ≠ rowA.id :=
  claim_C1_amended [rowA, rowB] rowA rowB (by decide) (by decide)

set_option maxRecDepth 8000 in
/-- C6 counterexample: build_prompt strips the content before embedding it,
so content that is shorter than the budget but carries leading whitespace is
not embedded unmodified — for the two-character content " a" the prompt
embeds "a". -/
theorem claim_C6_cex :
    build_prompt MAX_INPUT_CHARS " a".data
      ≠ promptHead ++ " a".data ++ promptTail := by
  decide

/-- C6 amended: build_prompt first strips leading and trailing whitespace;
a stripped content no longer than the (positive) budget is embedded
verbatim between the fixed prompt texts, and a longer stripped content is
embedded as its first floor(budget/2) characters, one inserted truncation
marker, and its last ceil(budget/2) characters, head and tail being
verbatim slices of the stripped content. -/
theorem claim_C6_amended (maxChars : Nat) (content : List Char) :
    ((pyStrip content).length ≤ maxChars →
       build_prompt maxChars content
         = promptHead ++ pyStrip content ++ promptTail)
  ∧ (maxChars < (pyStrip content).length → 0 < maxChars →
       build_prompt maxChars content
         = promptHead ++ (pyStrip content).take (maxChars / 2) ++ truncMarker ++
             (pyStrip content).drop
               ((pyStrip content).length - (maxChars + 1) / 2) ++ promptTail
       ∧ (pyStrip content).take (maxChars / 2) <+: pyStrip content
       ∧ (pyStrip content).drop
           ((pyStrip content).length - (maxChars + 1) / 2) <:+ pyStrip content
       ∧ ((pyStrip content).take (maxChars / 2)).length = maxChars / 2
       ∧ ((pyStrip content).drop
           ((pyStrip content).length - (maxChars + 1) / 2)).length
             = (maxChars + 1) / 2) := by
  constructor
  · intro h
    simp [build_prompt, truncatedBody, Nat.not_lt.mpr h]
  · intro h hpos
    have hmz : maxChars ≠ 0 := Nat.pos_iff_ne_zero.mp hpos
    refine ⟨?_, List.take_prefix _ _, List.drop_suffix _ _, ?_, ?_⟩
    · simp [build_prompt, truncatedBody, h, hmz, List.append_assoc]
    · rw [List.length_take]
      exact Nat.min_eq_left (le_of_lt (lt_of_le_of_lt (Nat.div_le_self _ _) h))
    · rw [List.length_drop]
      have hk : (maxChars + 1) / 2 ≤ (pyStrip content).length :=
        le_trans (Nat.div_le_self _ _) (Nat.succ_le_of_lt h)
      exact Nat.sub_sub_self hk

/-- Witness for C6: the short content "hi" with the default budget is
embedded verbatim; the content "abcdefgh" with budget 4 is embedded as its
first two and last two characters around one truncation marker. -/
theorem claim_C6_witness :
    ((pyStrip "hi".data).length ≤ 24000 ∧
     build_prompt 24000 "hi".data
       = promptHead ++ pyStrip "hi".data ++ promptTail)
  ∧ (4 < (pyStrip "abcdefgh".data).length ∧ 0 < 4 ∧
     (build_prompt 4 "abcdefgh".data
        = promptHead ++ (pyStrip "abcdefgh".data).take (4 / 2) ++ truncMarker ++
            (pyStrip "abcdefgh".data).drop
              ((pyStrip "abcdefgh".data).length - (4 + 1) / 2) ++ promptTail
      ∧ (pyStrip "abcdefgh".data).take (4 / 2) <+: pyStrip "abcdefgh".data
      ∧ (pyStrip "abcdefgh".data).drop
          ((pyStrip "abcdefgh".data).length - (4 + 1) / 2) <:+ pyStrip "abcdefgh".data
      ∧ ((pyStrip "abcdefgh".data).take (4 / 2)).length = 4 / 2
      ∧ ((pyStrip "abcdefgh".data).drop
          ((pyStrip "abcdefgh".data).length - (4 + 1) / 2)).length = (4 + 1) / 2)) :=
  ⟨⟨by decide, (claim_C6_amended 24000 "hi".data).1 (by decide)⟩,
   ⟨by decide, by decide,
    (claim_C6_amended 4 "abcdefgh".data).2 (by decide) (by decide)⟩⟩

set_option maxRecDepth 40000 in
/-- C7: PDF extraction fails hard on an encrypted PDF with a message naming
encryption; on a non-encrypted PDF with at least one page of extractable
text it succeeds, the content starts with a metadata block reporting the
total page count and the number of pages with text, and — on the 3-page
fixture whose page 2 is blank — the content contains headers for pages 1
and 3 only, "Total Pages: 3" and "Pages with Text: 2". -/
theorem claim_C7 :
    (∀ (name : String) (doc : PdfDoc), doc.encrypted = true →
       process_pdf_file name doc
         = (false, "", some "PDF is encrypted and cannot be processed"))
  ∧ (∀ (name : String) (doc : PdfDoc), doc.encrypted = false →
       pdfPageSections doc.pages ≠ [] →
       (process_pdf_file name doc).1 = true ∧
       ("=== PDF METADATA ===\nTotal Pages: " ++ toString doc.pages.length ++
        "\nPages with Text: " ++
        toString (doc.pages.countP (fun p => !(pyStripS p == ""))) ++
        "\nFile: " ++ name).data <+: (process_pdf_file name doc).2.1.data)
  ∧ ((process_pdf_file "doc.pdf" pdfDoc3).1 = true ∧
     "=== PAGE 1 ===".data <:+: (process_pdf_file "doc.pdf" pdfDoc3).2.1.data ∧
     "=== PAGE 3 ===".data <:+: (process_pdf_file "doc.pdf" pdfDoc3).2.1.data ∧
     ¬ ("=== PAGE 2 ===".data <:+: (process_pdf_file "doc.pdf" pdfDoc3).2.1.data) ∧
     "Total Pages: 3".data <:+: (process_pdf_file "doc.pdf" pdfDoc3).2.1.data ∧
     "Pages with Text: 2".data <:+: (process_pdf_file "doc.pdf" pdfDoc3).2.1.data) := by
  refine ⟨?_, ?_, ?_⟩
  · intro name doc h
    simp [process_pdf_file, h]
  · intro name doc h hne
    have hie : (pdfPageSections doc.pages).isEmpty = false := by
      cases hp : pdfPageSections doc.pages with
      | nil => exact absurd hp hne
      | cons a l => rfl
    have hlen : (pdfPageSections doc.pages).length
        = doc.pages.countP (fun p => !(pyStripS p == "")) :=
      pdfPageSectionsFrom_length doc.pages 0
    constructor
    · simp [process_pdf_file, h, hie]
    · rw [← hlen]
      refine ⟨("\n\n=== EXTRACTED TEXT ===\n"
                ++ String.intercalate "\n\n" (pdfPageSections doc.pages)).data, ?_⟩
      simp [process_pdf_file, h, hie, List.append_assoc]
  · refine ⟨rfl, ?_, ?_, ?_, ?_, ?_⟩ <;> decide

/-- Witness for C7: the encrypted fixture yields the encryption failure, and
the 3-page fixture succeeds with the metadata block as a prefix of its
content. -/
theorem claim_C7_witness :
    (process_pdf_file "enc.pdf" pdfDocEnc
       = (false, "", some "PDF is encrypted and cannot be processed"))
  ∧ ((process_pdf_file "doc.pdf" pdfDoc3).1 = true ∧
     ("=== PDF METADATA ===\nTotal Pages: " ++ toString pdfDoc3.pages.length ++
      "\nPages with Text: " ++
      toString (pdfDoc3.pages.countP (fun p => !(pyStripS p == ""))) ++
      "\nFile: " ++ "doc.pdf").data <+: (process_pdf_file "doc.pdf" pdfDoc3).2.1.data) :=
  ⟨claim_C7.1 "enc.pdf" pdfDocEnc rfl,
   claim_C7.2.1 "doc.pdf" pdfDoc3 rfl (by decide)⟩

/-- C10: duplicate rejection at upload is atomic — when the uploaded bytes'
hash already exists among the chat_files rows of the same conversation, the
route answers 409 Conflict referencing the first matching file's name and
upload date, and neither the content store nor any database table changes. -/
theorem claim_C10 (env : UploadEnv) (st : AppState) (userId convId : Nat)
    (filename : String) (content : List Nat) (conv : Conversation)
    (existing : ChatFile)
    (hconv : st.conversations.find?
        (fun c => c.id == convId && c.user_id == userId) = some conv)
    (hname : filename ≠ "")
    (hdup : st.chat_files.find?
        (fun f => f.conversation_id == convId
          && f.file_hash == some (env.md5 content)) = some existing) :
    upload_file_to_conversation env st userId convId filename content
      = (st, .conflict existing.original_filename existing.upload_date) := by
  simp [upload_file_to_conversation, hconv, hname, hdup]

/-- Witness for C10: re-uploading bytes whose hash "h" already exists in
conversation 1 returns 409 with the original row's name and date and leaves
the state untouched. -/
theorem claim_C10_witness :
    upload_file_to_conversation envW stW 1 1 "again.txt" [1, 2, 3]
      = (stW, .conflict "orig.txt" 42) :=
  claim_C10 envW stW 1 1 "again.txt" [1, 2, 3]
    { id := 1, user_id := 1, updated_at := 0 } rowDup
    (by decide) (by decide) (by decide)

end AICli
